import Mathlib

/-!
Verification of the legion CLI wait-for-completion core
(`legion/cli.py`): the affected-set filter
`get_related_model_deployments`, the scale completion predicate
`check_all_scaled`, the polling loop `wait_operation_finish`, and the
`deploy` / `scale` / `undeploy` operation drivers built on top of them.

The Python code is shallowly embedded: the EDI client is modelled by the
sequence of snapshots its `inspect` calls return, wall-clock time by the
sequence of values `time.time()` returns at each loop iteration, and the
unbounded `while True` loop by a fuel parameter (a `diverged` outcome
records fuel exhaustion, which never occurs once the clock passes the
deadline).
-/

/-- One deployed model workload as reported by the remote service
(`ModelDeploymentDescription`).  `model_api_ok` is `Option Bool` because
in Python the endpoint-health flag may be absent (`None`), which is
falsy, just like an explicit `False`. -/
structure ModelDeploymentDescription where
  model : String
  version : String
  image : String
  scale : Int
  ready_replicas : Int
  model_api_ok : Option Bool
  deriving DecidableEq, Repr

abbrev MD := ModelDeploymentDescription

/-- Modelled from the spec: the composite identity used as the stable
matching key — "composite identity = identifier+version".  The
`id_and_version` property itself lives in the `legion.k8s` module, which
is outside the CLI source; the CLI uses it only as an opaque key. -/
def ModelDeploymentDescription.id_and_version (d : MD) : String × String :=
  (d.model, d.version)

/-- Python truthiness of the `model_api_ok` attribute: `None` and
`False` are falsy, `True` is truthy. -/
def ModelDeploymentDescription.api_ok_truthy (d : MD) : Bool :=
  d.model_api_ok.getD false

/-- Embedding of `get_related_model_deployments` (cli.py:177-196): build
the set of composite identities of the affected deployments, then keep
exactly the descriptors of the inspected snapshot whose identity is in
that set.  The `client.inspect()` network call is modelled by passing
the snapshot it returns as `actual_deployments_status`. -/
def get_related_model_deployments (affected_deployments : List MD)
    (actual_deployments_status : List MD) : List MD :=
  let affected_deployment_ids := affected_deployments.map ModelDeploymentDescription.id_and_version
  actual_deployments_status.filter
    (fun deploy => decide (deploy.id_and_version ∈ affected_deployment_ids))

/-- Embedding of `check_all_scaled` (cli.py:242-260): keep the
deployments whose ready-replica count equals `expected_scale` and whose
endpoint is responsive, and compare their number with
`expected_count`. -/
def check_all_scaled (deployments_status : List MD)
    (expected_scale : Int) (expected_count : Int) : Bool :=
  let finally_deployed_models := deployments_status.filter
    (fun deployment => decide (deployment.ready_replicas = expected_scale)
      && deployment.api_ok_truthy)
  decide ((finally_deployed_models.length : Int) = expected_count)

/-- Terminal outcome of `wait_operation_finish`.  `skipped` is the
no-wait path (the whole body is guarded by `if not args.no_wait`);
`invalidTimeout` and `timedOut` are the two raised exceptions;
`confirmed` is the `break`; `diverged` records fuel exhaustion of the
embedding (the Python loop is unbounded). -/
inductive WaitOutcome where
  | skipped
  | invalidTimeout
  | timedOut
  | confirmed
  | diverged
  deriving DecidableEq, Repr

/-- Result of a run of the wait loop, together with the number of status
queries (`client.inspect()` calls) and `time.sleep(1)` calls it
performed. -/
structure WaitRun where
  outcome : WaitOutcome
  queries : Nat
  sleeps : Nat
  deriving DecidableEq, Repr

/-- The `while True` loop of `wait_operation_finish` (cli.py:221-239).
`clock i` is the value `time.time()` returns at the top of iteration
`i`; `snapshots i` is the snapshot `client.inspect()` returns at
iteration `i`.  At the top of iteration `i` the loop has already
performed `i` queries and `i` sleeps. -/
def waitLoopAux (timeout : Int) (start : Int) (clock : Nat → Int)
    (snapshots : Nat → List MD) (model_deployments : List MD)
    (wait_callback : List MD → Bool) : Nat → Nat → WaitRun
  | 0, i => ⟨.diverged, i, i⟩
  | fuel + 1, i =>
    if clock i - start > timeout then
      ⟨.timedOut, i, i⟩
    else if wait_callback
        (get_related_model_deployments model_deployments (snapshots i)) then
      ⟨.confirmed, i + 1, i⟩
    else
      waitLoopAux timeout start clock snapshots model_deployments
        wait_callback fuel (i + 1)

/-- Embedding of `wait_operation_finish` (cli.py:199-239).  If
`no_wait` is set the entire body is skipped; otherwise the start time is
recorded, a non-positive timeout raises immediately, and the polling
loop runs. -/
def wait_operation_finish (no_wait : Bool) (timeout : Int) (start : Int)
    (clock : Nat → Int) (snapshots : Nat → List MD)
    (model_deployments : List MD) (wait_callback : List MD → Bool)
    (fuel : Nat) : WaitRun :=
  if no_wait then
    ⟨.skipped, 0, 0⟩
  else if timeout ≤ 0 then
    ⟨.invalidTimeout, 0, 0⟩
  else
    waitLoopAux timeout start clock snapshots model_deployments
      wait_callback fuel 0

/-- The undeploy completion callback (cli.py:281): Python
`not affected_deployments_status`, true exactly on the empty list. -/
def undeploy_wait_callback (affected_deployments_status : List MD) : Bool :=
  affected_deployments_status.isEmpty

/-- Embedding of `undeploy_kubernetes` (cli.py:263-281).  The
`edi_client.undeploy` network call is modelled by its result: either an
error (a raised exception, which propagates before
`wait_operation_finish` is ever called) or the list of affected
deployments. -/
def undeploy_kubernetes {ε : Type} (dispatch : Except ε (List MD))
    (no_wait : Bool) (timeout : Int) (start : Int) (clock : Nat → Int)
    (snapshots : Nat → List MD) (fuel : Nat) : Except ε WaitRun :=
  match dispatch with
  | .error e => .error e
  | .ok model_deployments =>
    .ok (wait_operation_finish no_wait timeout start clock snapshots
      model_deployments undeploy_wait_callback fuel)

/-- Embedding of `scale_kubernetes` (cli.py:284-301): dispatch the scale
request, then wait with `check_all_scaled` expecting `args.scale` ready
replicas on `len(model_deployments)` deployments. -/
def scale_kubernetes {ε : Type} (dispatch : Except ε (List MD))
    (scale : Int) (no_wait : Bool) (timeout : Int) (start : Int)
    (clock : Nat → Int) (snapshots : Nat → List MD) (fuel : Nat) :
    Except ε WaitRun :=
  match dispatch with
  | .error e => .error e
  | .ok model_deployments =>
    .ok (wait_operation_finish no_wait timeout start clock snapshots
      model_deployments
      (fun affected_deployments_status =>
        check_all_scaled affected_deployments_status scale
          (model_deployments.length : Int))
      fuel)

/-- Embedding of `deploy_kubernetes` (cli.py:304-323): dispatch the
deploy request, then wait with `check_all_scaled` expecting
`args.scale` ready replicas on `len(model_deployments)` deployments. -/
def deploy_kubernetes {ε : Type} (dispatch : Except ε (List MD))
    (scale : Int) (no_wait : Bool) (timeout : Int) (start : Int)
    (clock : Nat → Int) (snapshots : Nat → List MD) (fuel : Nat) :
    Except ε WaitRun :=
  match dispatch with
  | .error e => .error e
  | .ok model_deployments =>
    .ok (wait_operation_finish no_wait timeout start clock snapshots
      model_deployments
      (fun affected_deployments_status =>
        check_all_scaled affected_deployments_status scale
          (model_deployments.length : Int))
      fuel)

/-- Modelled from the spec: the `AffectedSetFilter` of spec §4.1 applied
to an already-captured `AffectedSet` of composite identities — "given a
full status snapshot ... and an AffectedSet of composite identities,
produce the sub-collection whose composite identity appears in
AffectedSet". -/
def affectedSetFilter (affected_ids : List (String × String))
    (snapshot : List MD) : List MD :=
  snapshot.filter (fun deploy => decide (deploy.id_and_version ∈ affected_ids))

/-- Modelled from the spec: the WaitLoop of spec §4.3 whose `AffectedSet`
is "an immutable set of composite identities captured once, at the
moment a mutation request returns" — the loop body filters every
snapshot with that fixed identity set. -/
def waitLoopCapturedAux (timeout : Int) (start : Int) (clock : Nat → Int)
    (snapshots : Nat → List MD) (affected_ids : List (String × String))
    (wait_callback : List MD → Bool) : Nat → Nat → WaitRun
  | 0, i => ⟨.diverged, i, i⟩
  | fuel + 1, i =>
    if clock i - start > timeout then
      ⟨.timedOut, i, i⟩
    else if wait_callback (affectedSetFilter affected_ids (snapshots i)) then
      ⟨.confirmed, i + 1, i⟩
    else
      waitLoopCapturedAux timeout start clock snapshots affected_ids
        wait_callback fuel (i + 1)

/-- Modelled from the spec: `wait_operation_finish` as spec §4.3
describes it, with the identity set captured once at entry. -/
def wait_with_captured_set (no_wait : Bool) (timeout : Int) (start : Int)
    (clock : Nat → Int) (snapshots : Nat → List MD)
    (affected_ids : List (String × String)) (wait_callback : List MD → Bool)
    (fuel : Nat) : WaitRun :=
  if no_wait then
    ⟨.skipped, 0, 0⟩
  else if timeout ≤ 0 then
    ⟨.invalidTimeout, 0, 0⟩
  else
    waitLoopCapturedAux timeout start clock snapshots affected_ids
      wait_callback fuel 0

lemma waitLoopAux_succ (timeout start : Int) (clock : Nat → Int)
    (snapshots : Nat → List MD) (A : List MD) (cb : List MD → Bool)
    (fuel i : Nat) :
    waitLoopAux timeout start clock snapshots A cb (fuel + 1) i =
      if clock i - start > timeout then
        ⟨.timedOut, i, i⟩
      else if cb (get_related_model_deployments A (snapshots i)) then
        ⟨.confirmed, i + 1, i⟩
      else
        waitLoopAux timeout start clock snapshots A cb fuel (i + 1) := rfl

lemma waitLoopAux_queries_ge (timeout start : Int) (clock : Nat → Int)
    (snapshots : Nat → List MD) (A : List MD) (cb : List MD → Bool) :
    ∀ fuel i,
      i ≤ (waitLoopAux timeout start clock snapshots A cb fuel i).queries := by
  intro fuel
  induction fuel with
  | zero => intro i; exact le_refl i
  | succ n ih =>
    intro i
    rw [waitLoopAux_succ]
    by_cases h1 : clock i - start > timeout
    · rw [if_pos h1]
    · rw [if_neg h1]
      by_cases h2 : cb (get_related_model_deployments A (snapshots i)) = true
      · rw [if_pos h2]; exact Nat.le_succ i
      · rw [if_neg h2]; exact Nat.le_trans (Nat.le_succ i) (ih (i + 1))

lemma waitLoopAux_confirmed_queries (timeout start : Int) (clock : Nat → Int)
    (snapshots : Nat → List MD) (A : List MD) (cb : List MD → Bool)
    (fuel i : Nat)
    (h : (waitLoopAux timeout start clock snapshots A cb fuel i).outcome =
      .confirmed) :
    i + 1 ≤ (waitLoopAux timeout start clock snapshots A cb fuel i).queries := by
  cases fuel with
  | zero => exact absurd h (by simp [waitLoopAux])
  | succ n =>
    rw [waitLoopAux_succ] at h ⊢
    by_cases h1 : clock i - start > timeout
    · rw [if_pos h1] at h; exact absurd h (by simp)
    · rw [if_neg h1] at h ⊢
      by_cases h2 : cb (get_related_model_deployments A (snapshots i)) = true
      · rw [if_pos h2]
      · rw [if_neg h2]
        exact waitLoopAux_queries_ge timeout start clock snapshots A cb n (i + 1)

lemma waitLoopAux_eq_timedOut (timeout start : Int) (clock : Nat → Int)
    (snapshots : Nat → List MD) (A : List MD) (cb : List MD → Bool)
    (N : Nat) (hN : clock N - start > timeout) :
    ∀ fuel i, i ≤ N → N + 1 - i ≤ fuel →
      (∀ j, i ≤ j → j < N → clock j - start ≤ timeout ∧
        cb (get_related_model_deployments A (snapshots j)) = false) →
      waitLoopAux timeout start clock snapshots A cb fuel i =
        ⟨.timedOut, N, N⟩ := by
  intro fuel
  induction fuel with
  | zero => intro i hiN hfuel _; omega
  | succ n ih =>
    intro i hiN hfuel hpre
    rw [waitLoopAux_succ]
    rcases Nat.eq_or_lt_of_le hiN with heq | hlt
    · subst heq; rw [if_pos hN]
    · have hj := hpre i (le_refl i) hlt
      rw [if_neg (not_lt.mpr hj.1),
        if_neg (show ¬ cb (get_related_model_deployments A (snapshots i)) = true
          by simp [hj.2])]
      exact ih (i + 1) hlt (by omega) (fun j hij hjN => hpre j (by omega) hjN)

lemma waitLoopAux_eq_confirmed (timeout start : Int) (clock : Nat → Int)
    (snapshots : Nat → List MD) (A : List MD) (cb : List MD → Bool)
    (N : Nat) (hNt : clock N - start ≤ timeout)
    (hNcb : cb (get_related_model_deployments A (snapshots N)) = true) :
    ∀ fuel i, i ≤ N → N + 1 - i ≤ fuel →
      (∀ j, i ≤ j → j < N → clock j - start ≤ timeout ∧
        cb (get_related_model_deployments A (snapshots j)) = false) →
      waitLoopAux timeout start clock snapshots A cb fuel i =
        ⟨.confirmed, N + 1, N⟩ := by
  intro fuel
  induction fuel with
  | zero => intro i hiN hfuel _; omega
  | succ n ih =>
    intro i hiN hfuel hpre
    rw [waitLoopAux_succ]
    rcases Nat.eq_or_lt_of_le hiN with heq | hlt
    · subst heq; rw [if_neg (not_lt.mpr hNt), if_pos hNcb]
    · have hj := hpre i (le_refl i) hlt
      rw [if_neg (not_lt.mpr hj.1),
        if_neg (show ¬ cb (get_related_model_deployments A (snapshots i)) = true
          by simp [hj.2])]
      exact ih (i + 1) hlt (by omega) (fun j hij hjN => hpre j (by omega) hjN)

lemma waitLoopAux_outcome_of_deadline (timeout start : Int)
    (clock : Nat → Int) (snapshots : Nat → List MD) (A : List MD)
    (cb : List MD → Bool) (N : Nat) (hN : clock N - start > timeout) :
    ∀ fuel i, i ≤ N → N + 1 - i ≤ fuel →
      (waitLoopAux timeout start clock snapshots A cb fuel i).outcome =
          .timedOut ∨
        (waitLoopAux timeout start clock snapshots A cb fuel i).outcome =
          .confirmed := by
  intro fuel
  induction fuel with
  | zero => intro i hiN hfuel; omega
  | succ n ih =>
    intro i hiN hfuel
    rw [waitLoopAux_succ]
    by_cases h1 : clock i - start > timeout
    · rw [if_pos h1]; exact Or.inl rfl
    · have hlt : i < N := by
        rcases Nat.eq_or_lt_of_le hiN with heq | hlt
        · subst heq; exact absurd hN h1
        · exact hlt
      rw [if_neg h1]
      by_cases h2 : cb (get_related_model_deployments A (snapshots i)) = true
      · rw [if_pos h2]; exact Or.inr rfl
      · rw [if_neg h2]; exact ih (i + 1) hlt (by omega)

lemma api_ok_truthy_eq_some_true (d : MD) :
    d.api_ok_truthy = decide (d.model_api_ok = some true) := by
  unfold ModelDeploymentDescription.api_ok_truthy
  cases h : d.model_api_ok with
  | none => simp
  | some b => cases b <;> simp

lemma mem_get_related (A S : List MD) (d : MD) :
    d ∈ get_related_model_deployments A S ↔
      d ∈ S ∧ d.id_and_version ∈
        A.map ModelDeploymentDescription.id_and_version := by
  unfold get_related_model_deployments
  rw [List.mem_filter]
  simp only [decide_eq_true_eq]

lemma get_related_congr (A A' S : List MD)
    (h : ∀ x, x ∈ A.map ModelDeploymentDescription.id_and_version ↔
      x ∈ A'.map ModelDeploymentDescription.id_and_version) :
    get_related_model_deployments A S = get_related_model_deployments A' S := by
  unfold get_related_model_deployments
  exact List.filter_congr
    (fun d _ => decide_eq_decide.mpr (h d.id_and_version))

lemma waitLoopAux_congr (timeout start : Int) (clock : Nat → Int)
    (snapshots : Nat → List MD) (A A' : List MD) (cb : List MD → Bool)
    (h : ∀ x, x ∈ A.map ModelDeploymentDescription.id_and_version ↔
      x ∈ A'.map ModelDeploymentDescription.id_and_version) :
    ∀ fuel i, waitLoopAux timeout start clock snapshots A cb fuel i =
      waitLoopAux timeout start clock snapshots A' cb fuel i := by
  intro fuel
  induction fuel with
  | zero => intro i; rfl
  | succ n ih =>
    intro i
    rw [waitLoopAux_succ, waitLoopAux_succ,
      get_related_congr A A' (snapshots i) h, ih (i + 1)]

lemma waitLoopAux_eq_captured (timeout start : Int) (clock : Nat → Int)
    (snapshots : Nat → List MD) (A : List MD) (cb : List MD → Bool) :
    ∀ fuel i, waitLoopAux timeout start clock snapshots A cb fuel i =
      waitLoopCapturedAux timeout start clock snapshots
        (A.map ModelDeploymentDescription.id_and_version) cb fuel i := by
  intro fuel
  induction fuel with
  | zero => intro i; rfl
  | succ n ih =>
    intro i
    rw [waitLoopAux_succ]
    show _ = waitLoopCapturedAux timeout start clock snapshots _ cb (n + 1) i
    unfold waitLoopCapturedAux
    rw [ih (i + 1)]
    rfl

lemma wait_operation_finish_eq_captured (no_wait : Bool) (timeout start : Int)
    (clock : Nat → Int) (snapshots : Nat → List MD) (A : List MD)
    (cb : List MD → Bool) (fuel : Nat) :
    wait_operation_finish no_wait timeout start clock snapshots A cb fuel =
      wait_with_captured_set no_wait timeout start clock snapshots
        (A.map ModelDeploymentDescription.id_and_version) cb fuel := by
  unfold wait_operation_finish wait_with_captured_set
  rw [waitLoopAux_eq_captured timeout start clock snapshots A cb fuel 0]

lemma wait_operation_finish_congr (no_wait : Bool) (timeout start : Int)
    (clock : Nat → Int) (snapshots : Nat → List MD) (A A' : List MD)
    (cb : List MD → Bool) (fuel : Nat)
    (h : ∀ x, x ∈ A.map ModelDeploymentDescription.id_and_version ↔
      x ∈ A'.map ModelDeploymentDescription.id_and_version) :
    wait_operation_finish no_wait timeout start clock snapshots A cb fuel =
      wait_operation_finish no_wait timeout start clock snapshots A' cb fuel := by
  unfold wait_operation_finish
  rw [waitLoopAux_congr timeout start clock snapshots A A' cb h fuel 0]

/-- A healthy deployment descriptor used to instantiate the theorems
below on concrete inputs. -/
def dGood : MD := ⟨"demo", "1.0", "image-a", 2, 2, some true⟩

/-- A descriptor whose endpoint-health flag is explicitly `False`. -/
def dBad : MD := ⟨"demo", "1.0", "image-a", 2, 2, some false⟩

/-- A descriptor of another model whose endpoint-health flag is absent
(`None` in Python). -/
def dNone : MD := ⟨"other", "2.0", "image-b", 1, 1, none⟩

/-- Claim C1: `get_related_model_deployments` returns exactly the
descriptors of the snapshot `S` whose composite identity is in the set
of composite identities of the affected list `A`: membership holds iff
the descriptor is in `S` with an affected identity (no extras, no
omissions), every descriptor with an affected identity keeps its exact
multiplicity, and the result is a sublist of `S` (the embedding is pure,
so neither `A` nor `S` is modified and `S`'s order survives). -/
theorem claim_C1 (A S : List MD) :
    (∀ d, d ∈ get_related_model_deployments A S ↔
      d ∈ S ∧ d.id_and_version ∈
        A.map ModelDeploymentDescription.id_and_version) ∧
    (get_related_model_deployments A S).Sublist S ∧
    (∀ d : MD, d.id_and_version ∈
        A.map ModelDeploymentDescription.id_and_version →
      (get_related_model_deployments A S).count d = S.count d) := by
  refine ⟨mem_get_related A S, List.filter_sublist S, ?_⟩
  intro d hd
  have hp : (fun deploy : MD => decide (deploy.id_and_version ∈
      A.map ModelDeploymentDescription.id_and_version)) d = true :=
    decide_eq_true hd
  exact List.count_filter hp

/-- Claim C1 witness: concrete instantiation of the multiplicity part on
a one-element affected list and a two-element snapshot. -/
theorem claim_C1_witness :
    (get_related_model_deployments [dGood] [dGood, dNone]).count dGood =
      [dGood, dNone].count dGood :=
  (claim_C1 [dGood] [dGood, dNone]).2.2 dGood (by decide)

/-- Claim C2: `check_all_scaled D N K` is true iff the number of
descriptors of `D` whose ready-replica count equals `N` and whose
endpoint-health flag is `True` equals `K` exactly; a descriptor with the
right replica count but a `False` or absent (`None`) endpoint-health
flag contributes nothing to the count. -/
theorem claim_C2 (D : List MD) (N K : Int) :
    (check_all_scaled D N K = true ↔
      ((D.countP (fun d => decide (d.ready_replicas = N) &&
        decide (d.model_api_ok = some true)) : Int) = K)) ∧
    (∀ d : MD, d.model_api_ok ≠ some true →
      check_all_scaled (d :: D) N K = check_all_scaled D N K) := by
  have hp : ∀ d ∈ D, (decide (d.ready_replicas = N) && d.api_ok_truthy) =
      (decide (d.ready_replicas = N) &&
        decide (d.model_api_ok = some true)) :=
    fun d _ => by rw [api_ok_truthy_eq_some_true]
  constructor
  · simp only [check_all_scaled, decide_eq_true_eq,
      List.countP_eq_length_filter]
    rw [List.filter_congr hp]
  · intro d hne
    have hapi : d.api_ok_truthy = false := by
      rw [api_ok_truthy_eq_some_true]; exact decide_eq_false hne
    simp [check_all_scaled, List.filter_cons, hapi]

/-- Claim C2 witness: prepending a descriptor with the right replica
count but a `False` endpoint-health flag does not change the result. -/
theorem claim_C2_witness :
    check_all_scaled (dBad :: [dGood]) 2 1 = check_all_scaled [dGood] 2 1 :=
  (claim_C2 [dGood] 2 1).2 dBad (by decide)

/-- Claim C3: with the no-wait flag unset and a non-positive timeout,
`wait_operation_finish` fails with the invalid-timeout configuration
error having performed zero status queries (and zero sleeps). -/
theorem claim_C3 (timeout start : Int) (clock : Nat → Int)
    (snapshots : Nat → List MD) (A : List MD) (cb : List MD → Bool)
    (fuel : Nat) (h : timeout ≤ 0) :
    wait_operation_finish false timeout start clock snapshots A cb fuel =
      ⟨.invalidTimeout, 0, 0⟩ := by
  unfold wait_operation_finish
  rw [if_neg Bool.false_ne_true, if_pos h]

/-- Claim C3 witness: timeout zero fails fast on a concrete
configuration. -/
theorem claim_C3_witness :
    (0 : Int) ≤ 0 ∧
      wait_operation_finish false 0 5 (fun _ => 99) (fun _ => [dGood])
        [dGood] (fun _ => true) 7 = ⟨.invalidTimeout, 0, 0⟩ :=
  ⟨by decide,
    claim_C3 0 5 (fun _ => 99) (fun _ => [dGood]) [dGood] (fun _ => true) 7
      (by decide)⟩

/-- Claim C4: if the deadline is positive and the clock at iteration `N`
strictly exceeds it, then (first part) whenever the completion predicate
is false on every poll and no earlier iteration exceeded the deadline,
the loop exits with the timeout failure at iteration `N` having queried
exactly `N` times — the elapsed-time check of iteration `N` fires before
that iteration's status query — and (second part) for an arbitrary
predicate the loop still terminates, with either timeout or
confirmation. -/
theorem claim_C4 (timeout start : Int) (clock : Nat → Int)
    (snapshots : Nat → List MD) (A : List MD) (cb : List MD → Bool)
    (fuel N : Nat) (htpos : 0 < timeout) (hfuel : N + 1 ≤ fuel)
    (hN : clock N - start > timeout) :
    ((∀ i, cb (get_related_model_deployments A (snapshots i)) = false) →
      (∀ j, j < N → clock j - start ≤ timeout) →
      wait_operation_finish false timeout start clock snapshots A cb fuel =
        ⟨.timedOut, N, N⟩) ∧
    ((wait_operation_finish false timeout start clock snapshots A cb
        fuel).outcome = .timedOut ∨
      (wait_operation_finish false timeout start clock snapshots A cb
        fuel).outcome = .confirmed) := by
  have hnw : wait_operation_finish false timeout start clock snapshots A cb
      fuel = waitLoopAux timeout start clock snapshots A cb fuel 0 := by
    unfold wait_operation_finish
    rw [if_neg Bool.false_ne_true, if_neg (not_le.mpr htpos)]
  constructor
  · intro hcb hpre
    rw [hnw]
    exact waitLoopAux_eq_timedOut timeout start clock snapshots A cb N hN
      fuel 0 (Nat.zero_le N) (by omega) (fun j _ hj => ⟨hpre j hj, hcb j⟩)
  · rw [hnw]
    exact waitLoopAux_outcome_of_deadline timeout start clock snapshots A cb
      N hN fuel 0 (Nat.zero_le N) (by omega)

/-- Claim C4 witness: with a one-second deadline and a clock advancing
one unit per iteration, an always-false predicate times out at iteration
2 after exactly 2 status queries. -/
theorem claim_C4_witness :
    wait_operation_finish false 1 0 (fun i => (i : Int)) (fun _ => [])
      [] (fun _ => false) 5 = ⟨.timedOut, 2, 2⟩ :=
  (claim_C4 1 0 (fun i => (i : Int)) (fun _ => []) [] (fun _ => false) 5 2
    (by decide) (by decide) (by decide)).1 (fun _ => rfl)
    (by intro j hj; omega)

/-- Claim C5: if iteration `N` is the first whose predicate evaluation
is true and the deadline has not been exceeded through iteration `N`,
the loop returns confirmed with exactly `N + 1` status queries (none
after the confirming one) and exactly `N` sleeps (no sleep after the
confirming evaluation). -/
theorem claim_C5 (timeout start : Int) (clock : Nat → Int)
    (snapshots : Nat → List MD) (A : List MD) (cb : List MD → Bool)
    (fuel N : Nat) (htpos : 0 < timeout) (hfuel : N + 1 ≤ fuel)
    (hbefore : ∀ j, j ≤ N → clock j - start ≤ timeout)
    (hfalse : ∀ j, j < N →
      cb (get_related_model_deployments A (snapshots j)) = false)
    (htrue : cb (get_related_model_deployments A (snapshots N)) = true) :
    wait_operation_finish false timeout start clock snapshots A cb fuel =
      ⟨.confirmed, N + 1, N⟩ := by
  unfold wait_operation_finish
  rw [if_neg Bool.false_ne_true, if_neg (not_le.mpr htpos)]
  exact waitLoopAux_eq_confirmed timeout start clock snapshots A cb N
    (hbefore N (le_refl N)) htrue fuel 0 (Nat.zero_le N) (by omega)
    (fun j _ hj => ⟨hbefore j (Nat.le_of_lt hj), hfalse j hj⟩)

/-- Claim C5 witness: an immediately-true predicate confirms on the very
first iteration with one query and zero sleeps. -/
theorem claim_C5_witness :
    wait_operation_finish false 1 0 (fun _ => 0) (fun _ => [dGood]) [dGood]
      (fun _ => true) 1 = ⟨.confirmed, 1, 0⟩ :=
  claim_C5 1 0 (fun _ => 0) (fun _ => [dGood]) [dGood] (fun _ => true) 1 0
    (by decide) (by decide) (fun j _ => by norm_num)
    (fun j hj => absurd hj (Nat.not_lt_zero j)) rfl

/-- Claim C6: the undeploy completion callback is true exactly on the
empty filtered snapshot, and is false on any non-empty snapshot
whatever its head and tail contain. -/
theorem claim_C6 (s : List MD) :
    (undeploy_wait_callback s = true ↔ s = []) ∧
    (∀ d t, undeploy_wait_callback (d :: t) = false) :=
  ⟨List.isEmpty_iff, fun _ _ => rfl⟩

/-- Claim C7 counterexample: with the no-wait flag set the wait
operation performs zero status queries, not one — here on a
configuration where a status check, were one performed, would even
succeed at once. -/
theorem claim_C7_counterexample :
    ¬ ((wait_operation_finish true 10 0 (fun _ => 0) (fun _ => [dGood])
      [dGood] (fun _ => true) 5).queries = 1) := by decide

/-- Claim C7 (amended): when the no-wait flag is set the wait operation
skips the wait loop entirely and returns at once, performing zero status
queries and zero sleeps, regardless of the timeout value; no completion
predicate is evaluated. -/
theorem claim_C7 (timeout start : Int) (clock : Nat → Int)
    (snapshots : Nat → List MD) (A : List MD) (cb : List MD → Bool)
    (fuel : Nat) :
    wait_operation_finish true timeout start clock snapshots A cb fuel =
      ⟨.skipped, 0, 0⟩ := rfl

/-- Claim C8: for each of the deploy, scale and undeploy operations, a
failed dispatch (a raised exception from the initial mutation request)
surfaces directly as the operation's result: the wait loop is never
entered and no status query is performed. -/
theorem claim_C8 (ε : Type) (e : ε) (scale : Int) (no_wait : Bool)
    (timeout start : Int) (clock : Nat → Int) (snapshots : Nat → List MD)
    (fuel : Nat) :
    deploy_kubernetes (Except.error e) scale no_wait timeout start clock
        snapshots fuel = Except.error e ∧
    scale_kubernetes (Except.error e) scale no_wait timeout start clock
        snapshots fuel = Except.error e ∧
    undeploy_kubernetes (Except.error e) no_wait timeout start clock
        snapshots fuel = Except.error e :=
  ⟨rfl, rfl, rfl⟩

/-- Claim C9: for both scale and deploy, the expected count handed to
the scale-confirmed predicate is the length of the dispatched
affected-deployment list: under a live deadline the first poll confirms
exactly when the number of qualifying descriptors in the filtered
snapshot equals `ds.length`, and in particular an empty dispatched list
confirms on the first poll with one query and no sleep. -/
theorem claim_C9 (ε : Type) (ds : List MD) (scale timeout start : Int)
    (clock : Nat → Int) (snapshots : Nat → List MD) (fuel : Nat)
    (htpos : 0 < timeout) (hfuel : 1 ≤ fuel)
    (hclock : clock 0 - start ≤ timeout) :
    (scale_kubernetes (Except.ok ds : Except ε (List MD)) scale false
        timeout start clock snapshots fuel = Except.ok ⟨.confirmed, 1, 0⟩ ↔
      check_all_scaled (get_related_model_deployments ds (snapshots 0))
        scale (ds.length : Int) = true) ∧
    (deploy_kubernetes (Except.ok ds : Except ε (List MD)) scale false
        timeout start clock snapshots fuel = Except.ok ⟨.confirmed, 1, 0⟩ ↔
      check_all_scaled (get_related_model_deployments ds (snapshots 0))
        scale (ds.length : Int) = true) ∧
    (ds = [] → scale_kubernetes (Except.ok ds : Except ε (List MD)) scale
      false timeout start clock snapshots fuel =
      Except.ok ⟨.confirmed, 1, 0⟩) ∧
    (ds = [] → deploy_kubernetes (Except.ok ds : Except ε (List MD)) scale
      false timeout start clock snapshots fuel =
      Except.ok ⟨.confirmed, 1, 0⟩) := by
  have hwait : ∀ cb : List MD → Bool,
      (wait_operation_finish false timeout start clock snapshots ds cb fuel =
          ⟨.confirmed, 1, 0⟩ ↔
        cb (get_related_model_deployments ds (snapshots 0)) = true) := by
    intro cb
    have hnw : wait_operation_finish false timeout start clock snapshots ds
        cb fuel = waitLoopAux timeout start clock snapshots ds cb fuel 0 := by
      unfold wait_operation_finish
      rw [if_neg Bool.false_ne_true, if_neg (not_le.mpr htpos)]
    constructor
    · intro h
      by_contra hcb
      have hcb' : cb (get_related_model_deployments ds (snapshots 0)) =
          false := by
        revert hcb
        cases cb (get_related_model_deployments ds (snapshots 0)) <;> simp
      rw [hnw] at h
      cases fuel with
      | zero => omega
      | succ n =>
        rw [waitLoopAux_succ, if_neg (not_lt.mpr hclock),
          if_neg (show ¬ cb (get_related_model_deployments ds
            (snapshots 0)) = true by simp [hcb'])] at h
        have h1 := waitLoopAux_confirmed_queries timeout start clock
          snapshots ds cb n 1 (by rw [h])
        rw [h] at h1
        exact absurd h1 (by decide)
    · intro hcb
      rw [hnw]
      exact waitLoopAux_eq_confirmed timeout start clock snapshots ds cb 0
        hclock hcb fuel 0 (le_refl 0) (by omega)
        (fun j _ hj => absurd hj (Nat.not_lt_zero j))
  have hscale : scale_kubernetes (Except.ok ds : Except ε (List MD)) scale
      false timeout start clock snapshots fuel =
      Except.ok (wait_operation_finish false timeout start clock snapshots
        ds (fun s => check_all_scaled s scale (ds.length : Int)) fuel) := rfl
  have hdeploy : deploy_kubernetes (Except.ok ds : Except ε (List MD)) scale
      false timeout start clock snapshots fuel =
      Except.ok (wait_operation_finish false timeout start clock snapshots
        ds (fun s => check_all_scaled s scale (ds.length : Int)) fuel) := rfl
  have hmain := hwait (fun s => check_all_scaled s scale (ds.length : Int))
  have hempty : ds = [] →
      check_all_scaled (get_related_model_deployments ds (snapshots 0))
        scale (ds.length : Int) = true := by
    intro h; subst h
    have hrel : get_related_model_deployments [] (snapshots 0) = [] := by
      simp [get_related_model_deployments]
    rw [hrel]
    rfl
  refine ⟨?_, ?_, ?_, ?_⟩
  · rw [hscale, Except.ok.injEq]
    exact hmain
  · rw [hdeploy, Except.ok.injEq]
    exact hmain
  · intro h
    rw [hscale, Except.ok.injEq]
    exact hmain.mpr (hempty h)
  · intro h
    rw [hdeploy, Except.ok.injEq]
    exact hmain.mpr (hempty h)

/-- Claim C9 witness: an empty dispatched affected list confirms the
scale operation on the first poll. -/
theorem claim_C9_witness :
    scale_kubernetes (Except.ok ([] : List MD) : Except Unit (List MD)) 3
      false 10 0 (fun _ => 0) (fun _ => [dGood]) 4 =
      Except.ok ⟨.confirmed, 1, 0⟩ :=
  (claim_C9 Unit [] 3 10 0 (fun _ => 0) (fun _ => [dGood]) 4 (by decide)
    (by decide) (by decide)).2.2.1 rfl

/-- Claim C10: the identity set filtering each snapshot is invariant
across the wait loop — the run equals the spec-side loop whose
`AffectedSet` is captured once at entry from the affected list, and the
run depends on the affected list only through that identity set: two
affected lists with the same set of composite identities produce
identical runs (the affected list itself is never changed — the
embedding is pure and passes it unchanged to every iteration). -/
theorem claim_C10 (no_wait : Bool) (timeout start : Int) (clock : Nat → Int)
    (snapshots : Nat → List MD) (A : List MD) (cb : List MD → Bool)
    (fuel : Nat) :
    (wait_operation_finish no_wait timeout start clock snapshots A cb fuel =
      wait_with_captured_set no_wait timeout start clock snapshots
        (A.map ModelDeploymentDescription.id_and_version) cb fuel) ∧
    (∀ A' : List MD,
      (A.map ModelDeploymentDescription.id_and_version).toFinset =
        (A'.map ModelDeploymentDescription.id_and_version).toFinset →
      wait_operation_finish no_wait timeout start clock snapshots A cb fuel =
        wait_operation_finish no_wait timeout start clock snapshots A' cb
          fuel) := by
  refine ⟨wait_operation_finish_eq_captured no_wait timeout start clock
    snapshots A cb fuel, ?_⟩
  intro A' h
  exact wait_operation_finish_congr no_wait timeout start clock snapshots A
    A' cb fuel (fun x => by rw [← List.mem_toFinset, h, List.mem_toFinset])

/-- Claim C10 witness: duplicating an affected descriptor leaves the
whole wait run unchanged, since only the identity set matters. -/
theorem claim_C10_witness :
    wait_operation_finish false 2 0 (fun _ => 0) (fun _ => [dGood]) [dGood]
      undeploy_wait_callback 3 =
      wait_operation_finish false 2 0 (fun _ => 0) (fun _ => [dGood])
        [dGood, dGood] undeploy_wait_callback 3 :=
  (claim_C10 false 2 0 (fun _ => 0) (fun _ => [dGood]) [dGood]
    undeploy_wait_callback 3).2 [dGood, dGood] (by decide)
